import Mathlib

set_option maxRecDepth 100000

/-!
A verification development for the climate monitor firmware
(`CSE321_project3_brettsit_main.cpp`).

The program's global variables become the fields of the structure `St`;
each C function that touches those globals becomes a Lean function
`St → St` (or `St → args → St`).  C `int` is modelled as `ℤ`.  C `float`
and `double` values are modelled as the exact rational value the IEEE-754
number denotes; the rounding performed by the hardware is modelled
explicitly by `fl 24` (binary32) and `fl 53` (binary64), round to nearest,
ties to even.  All values arising in this program are far inside the
normal range of both formats, so overflow and subnormals never occur and
are not modelled.
-/

/-! ### Binary floating point, modelled over ℚ -/

/-- Number of binary digits of `n` (`0` for `0`), with explicit fuel so the
kernel can evaluate it.  128 bits of fuel covers every numerator and
denominator that occurs in this development. -/
def bitsAux : Nat → Nat → Nat
  | 0, _ => 0
  | fuel + 1, n => if n = 0 then 0 else bitsAux fuel (n / 2) + 1

def bits (n : Nat) : Nat := bitsAux 128 n

/-- The power `2 ^ e` as a rational, for `e : ℤ`. -/
def pow2 (e : ℤ) : ℚ := if 0 ≤ e then ((2 ^ e.toNat : ℕ) : ℚ) else 1 / ((2 ^ (-e).toNat : ℕ) : ℚ)

/-- Floor of a rational as an integer (the denominator of `ℚ` is positive,
so floored integer division of the numerator by it is the floor). -/
def ratFloor (q : ℚ) : ℤ := Int.fdiv q.num q.den

/-- Truncation toward zero, the semantics of C's `float`→`int` conversion. -/
def ratTrunc (q : ℚ) : ℤ := if q < 0 then -ratFloor (-q) else ratFloor q

/-- Round a rational to the nearest integer, ties to even. -/
def roundNearestEven (q : ℚ) : ℤ :=
  let f := ratFloor q
  let r := q - (f : ℚ)
  if r < 1 / 2 then f
  else if 1 / 2 < r then f + 1
  else if f % 2 = 0 then f else f + 1

/-- For `q > 0`, the unique `e` with `2 ^ e ≤ q < 2 ^ (e + 1)`. -/
def ilog2 (q : ℚ) : ℤ :=
  let a : ℤ := (bits q.num.natAbs : ℤ) - (bits q.den : ℤ)
  if q < pow2 a then a - 1 else a

/-- Round `q` to a binary floating-point number with a `prec`-bit
significand (round to nearest, ties to even); `prec = 24` is IEEE binary32
(`float`), `prec = 53` is IEEE binary64 (`double`). -/
def fl (prec : ℕ) (q : ℚ) : ℚ :=
  if q = 0 then 0
  else
    let aq : ℚ := if q < 0 then -q else q
    let e : ℤ := ilog2 aq - ((prec : ℤ) - 1)
    let m : ℤ := roundNearestEven (aq * pow2 (-e))
    let r : ℚ := (m : ℚ) * pow2 e
    if q < 0 then -r else r

/-- Rounding of a `double` arithmetic result. -/
def dbl (q : ℚ) : ℚ := fl 53 q

/-- Rounding of a value stored into a `float`. -/
def flt (q : ℚ) : ℚ := fl 24 q

/-- The value of the `double` literal `1.8` appearing in the source:
the binary64 number nearest to 9/5. -/
def lit18 : ℚ := fl 53 (9 / 5)

/-! ### Program constants (the `#define`s of the source) -/

def MAX_INPUT : ℤ := 9
def IDLE : ℤ := 0
def INPUT : ℤ := 1
def MONITOR : ℤ := 2
def ALERT : ℤ := 3
def FAHRENHEIT : Bool := false
def CELCIUS : Bool := true
def TEMP_MIN_C : ℤ := 0
def TEMP_MIN_F : ℤ := 32
def TEMP_MAX_C : ℤ := 50
def TEMP_MAX_F : ℤ := 122
def HUMIDITY_MIN : ℤ := 20
def HUMIDITY_MAX : ℤ := 95

/-! ### Conversion utilities

`float toFahrenheit(int celcius) { return celcius * 1.8 + 32; }` —
the multiplication and addition happen in `double` (one rounding each),
and the result is rounded once more when converted to `float`.

`int toCelcius(float fahrenheit) { return (fahrenheit - 32) / 1.8; }` —
the subtraction and division happen in `double`, then the result is
truncated toward zero by the `int` conversion. -/

def toFahrenheit (celcius : ℤ) : ℚ := flt (dbl (dbl ((celcius : ℚ) * lit18) + 32))

def toCelcius (fahrenheit : ℚ) : ℤ := ratTrunc (dbl (dbl (fahrenheit - 32) / lit18))

/-! ### The global state

One field per global variable of the source that the modelled functions
read or write.  The user-entered string `input_str` is modelled as its
list of characters.  The LCD, the event queue, the watchdog, and the DHT11
peripheral itself are outside collaborators and are not part of the
state; the buzzer and LED output latches are kept as booleans. -/

structure St where
  row : ℤ
  celcius : ℤ
  fahrenheit : ℚ
  humidity : ℤ
  input_stage : ℤ
  input_len : ℤ
  input_str : List Char
  input_modified : Bool
  temp_min_c : ℤ
  temp_min_f : ℚ
  temp_max_c : ℤ
  temp_max_f : ℚ
  humidity_min : ℤ
  humidity_max : ℤ
  unit : Bool
  mode : ℤ
  buzzer : Bool
  led : Bool
  deriving DecidableEq, Repr

/-- The initial values of the globals (file-scope initialisers; the three
sensor caches are zero-initialised). -/
def st0 : St :=
  { row := -1
    celcius := 0
    fahrenheit := 0
    humidity := 0
    input_stage := -1
    input_len := -1
    input_str := []
    input_modified := false
    temp_min_c := TEMP_MIN_C
    temp_min_f := (TEMP_MIN_F : ℚ)
    temp_max_c := TEMP_MAX_C
    temp_max_f := (TEMP_MAX_F : ℚ)
    humidity_min := HUMIDITY_MIN
    humidity_max := HUMIDITY_MAX
    unit := CELCIUS
    mode := IDLE
    buzzer := false
    led := false }

/-! ### The keypad column interrupt handlers

Each handler reads the row cursor to decode the key.  The trailing
`queue.call(flash, BOUNCE)` only schedules an LED pulse and touches no
modelled state. -/

/-- Handler `isr_c0`: column 0, keys `1` / `4` / `7` / `*`. -/
def isr_c0 (s : St) : St :=
  if s.mode = INPUT ∧ s.input_len < MAX_INPUT then
    let s1 :=
      if s.row = 0 then { s with input_str := s.input_str ++ ['1'] }
      else if s.row = 1 then { s with input_str := s.input_str ++ ['4'] }
      else if s.row = 2 then { s with input_str := s.input_str ++ ['7'] }
      else s
    { s1 with input_len := s1.input_len + 1, input_modified := true }
  else s

/-- Handler `isr_c1`: column 1, keys `2` / `5` / `8` / `0`. -/
def isr_c1 (s : St) : St :=
  if s.mode = INPUT ∧ s.input_len < MAX_INPUT then
    let s1 :=
      if s.row = 0 then { s with input_str := s.input_str ++ ['2'] }
      else if s.row = 1 then { s with input_str := s.input_str ++ ['5'] }
      else if s.row = 2 then { s with input_str := s.input_str ++ ['8'] }
      else if s.row = 3 then { s with input_str := s.input_str ++ ['0'] }
      else s
    { s1 with input_len := s1.input_len + 1, input_modified := true }
  else s

/-- Handler `isr_c2`: column 2, keys `3` / `6` / `9` / `#`. -/
def isr_c2 (s : St) : St :=
  if s.mode = INPUT ∧ s.input_len < MAX_INPUT then
    let s1 :=
      if s.row = 0 then { s with input_str := s.input_str ++ ['3'] }
      else if s.row = 1 then { s with input_str := s.input_str ++ ['6'] }
      else if s.row = 2 then { s with input_str := s.input_str ++ ['9'] }
      else s
    { s1 with input_len := s1.input_len + 1, input_modified := true }
  else s

/-- Handler `isr_c3`: column 3, command keys `A` / `B` / `C` / `D`. -/
def isr_c3 (s : St) : St :=
  if s.row = 0 then
    if s.input_stage ≠ -1 then { s with input_stage := s.input_stage + 1 } else s
  else if s.row = 1 then
    if s.mode ≠ INPUT then { s with mode := IDLE } else s
  else if s.row = 2 then
    if s.mode = INPUT then
      { s with input_str := [], input_len := 0, input_modified := true }
    else { s with unit := !s.unit }
  else if s.row = 3 then { s with mode := INPUT }
  else s

/-! ### Keypress events

A physical keypress closes the circuit of its own row and column; the
column interrupt fires during the scan slot in which the main loop has
energised that row, so delivering key `k` means running `k`'s column
handler with the row cursor equal to `k`'s row. -/

inductive Key
  | k1 | k2 | k3 | kA
  | k4 | k5 | k6 | kB
  | k7 | k8 | k9 | kC
  | kStar | k0 | kHash | kD
  deriving DecidableEq, Repr

/-- The keypad row of a key. -/
def Key.row : Key → ℤ
  | .k1 | .k2 | .k3 | .kA => 0
  | .k4 | .k5 | .k6 | .kB => 1
  | .k7 | .k8 | .k9 | .kC => 2
  | .kStar | .k0 | .kHash | .kD => 3

/-- The keypad column (hence interrupt handler) of a key. -/
def Key.col : Key → ℕ
  | .k1 | .k4 | .k7 | .kStar => 0
  | .k2 | .k5 | .k8 | .k0 => 1
  | .k3 | .k6 | .k9 | .kHash => 2
  | .kA | .kB | .kC | .kD => 3

def Key.isDigit : Key → Bool
  | .k0 | .k1 | .k2 | .k3 | .k4 | .k5 | .k6 | .k7 | .k8 | .k9 => true
  | _ => false

/-- The character a digit key appends (junk for command keys). -/
def Key.char : Key → Char
  | .k0 => '0' | .k1 => '1' | .k2 => '2' | .k3 => '3' | .k4 => '4'
  | .k5 => '5' | .k6 => '6' | .k7 => '7' | .k8 => '8' | .k9 => '9'
  | _ => ' '

/-- Deliver one keypress: the key's column handler runs with the row
cursor on the key's row. -/
def pressKey (s : St) (k : Key) : St :=
  match k.col with
  | 0 => isr_c0 { s with row := k.row }
  | 1 => isr_c1 { s with row := k.row }
  | 2 => isr_c2 { s with row := k.row }
  | _ => isr_c3 { s with row := k.row }

/-- Deliver a sequence of keypresses in order. -/
def pressList (s : St) (ks : List Key) : St := ks.foldl pressKey s

/-! ### Configuration input collection (the `INPUT` branch of `update_lcd`)

The keypad builds the buffer only out of decimal digits, so `atoi` on it
is the plain base-10 value of its maximal leading digit run (an empty
buffer parses as 0). -/

/-- The effect of `atoi` on the input buffer. -/
def atoi (cs : List Char) : ℤ :=
  (cs.takeWhile Char.isDigit).foldl (fun n c => 10 * n + ((c.toNat : ℤ) - 48)) 0

/-- The start of `get_input`: the buffer is cleared before collecting a
stage's digits. -/
def beginEntry (s : St) : St := { s with input_str := [], input_len := 0 }

/-- The per-stage conversion in `update_lcd` (lines 274–300): parse the
buffer and store it into the threshold field selected by the stage,
recomputing the paired temperature unit immediately. -/
def storeStage (s : St) (current_stage : ℕ) : St :=
  if current_stage = 0 then
    if s.unit = CELCIUS then
      let v := atoi s.input_str
      { s with temp_min_c := v, temp_min_f := toFahrenheit v }
    else
      let v : ℚ := flt ((atoi s.input_str : ℚ))
      { s with temp_min_f := v, temp_min_c := toCelcius v }
  else if current_stage = 1 then
    if s.unit = CELCIUS then
      let v := atoi s.input_str
      { s with temp_max_c := v, temp_max_f := toFahrenheit v }
    else
      let v : ℚ := flt ((atoi s.input_str : ℚ))
      { s with temp_max_f := v, temp_max_c := toCelcius v }
  else if current_stage = 2 then
    { s with humidity_min := atoi s.input_str }
  else
    { s with humidity_max := atoi s.input_str }

/-- One stage of the collection loop: clear the buffer, deliver the
user's keypresses for this stage, deliver the terminating `A` press
(which advances `input_stage` and ends `get_input`'s wait loop), then
store the parsed value. -/
def runStage (s : St) (current_stage : ℕ) (ks : List Key) : St :=
  storeStage (pressKey (pressList (beginEntry s) ks) Key.kA) current_stage

/-- The four stages of the `INPUT` branch in order, starting from
`input_stage = 0` (line 267). -/
def runStages (s : St) (d0 d1 d2 d3 : List Key) : St :=
  runStage (runStage (runStage (runStage { s with input_stage := 0 } 0 d0) 1 d1) 2 d2) 3 d3

/-- Validation, `validate_input` (lines 531–545). -/
def validate_input (s : St) : Bool :=
  let valid_temp_c :=
    decide (TEMP_MIN_C ≤ s.temp_min_c) && decide (s.temp_min_c ≤ s.temp_max_c) &&
      decide (s.temp_max_c ≤ TEMP_MAX_C)
  let valid_temp_f :=
    decide ((TEMP_MIN_F : ℚ) ≤ s.temp_min_f) && decide (s.temp_min_f ≤ s.temp_max_f) &&
      decide (s.temp_max_f ≤ (TEMP_MAX_F : ℚ))
  let valid_humidity :=
    decide (HUMIDITY_MIN ≤ s.humidity_min) && decide (s.humidity_min ≤ s.humidity_max) &&
      decide (s.humidity_max ≤ HUMIDITY_MAX)
  valid_humidity && valid_temp_c && valid_temp_f

/-- The complete `INPUT` branch of `update_lcd` (lines 266–320): run the
four stages, reset `input_stage` to −1, then validate.  If the values
validate, `mode` becomes `MONITOR`; otherwise nothing else is written —
the branch only shows the "Invalid Input" notice and sleeps 3000 ms,
which the second component records (`true` = notice shown). -/
def inputBranch (s : St) (d0 d1 d2 d3 : List Key) : St × Bool :=
  let s1 := { runStages s d0 d1 d2 d3 with input_stage := -1 }
  if validate_input s1 then ({ s1 with mode := MONITOR }, false) else (s1, true)

/-- The six `ThresholdConfig` fields, for stating that a whole
configuration is (or is not) changed. -/
def config (s : St) : ℤ × ℚ × ℤ × ℚ × ℤ × ℤ :=
  (s.temp_min_c, s.temp_min_f, s.temp_max_c, s.temp_max_f, s.humidity_min, s.humidity_max)

/-! ### The monitor task and the alert -/

/-- One fresh value set delivered by the DHT11 driver. -/
structure Reading where
  celsius : ℤ
  fahrenheit : ℚ
  humidity : ℤ
  deriving DecidableEq, Repr

/-- `update_sensor`: refresh the three cached sensor globals. -/
def update_sensor (s : St) (r : Reading) : St :=
  { s with celcius := r.celsius, fahrenheit := r.fahrenheit, humidity := r.humidity }

/-- The four breach kinds, in the order `monitor_state` tests them. -/
inductive Breach
  | tempTooLow | tempTooHigh | humTooLow | humTooHigh
  deriving DecidableEq, Repr

/-- The two LCD lines `monitor_state` prints for a breach. -/
def breachLines : Breach → List String
  | .tempTooLow => ["Temperature Too", "Low"]
  | .tempTooHigh => ["Temperature Too", "High"]
  | .humTooLow => ["Humidity Too Low"]
  | .humTooHigh => ["Humidity Too", "High"]

/-- The low-temperature test of `monitor_state` (line 457). -/
def tempLowCond (s : St) : Prop :=
  (s.unit = FAHRENHEIT ∧ s.fahrenheit < s.temp_min_f) ∨
    (s.unit = CELCIUS ∧ s.celcius < s.temp_min_c)

/-- The high-temperature test of `monitor_state` (line 465). -/
def tempHighCond (s : St) : Prop :=
  (s.unit = FAHRENHEIT ∧ s.fahrenheit > s.temp_max_f) ∨
    (s.unit = CELCIUS ∧ s.celcius > s.temp_max_c)

/-- The low-humidity test of `monitor_state` (line 473). -/
def humLowCond (s : St) : Prop := s.humidity < s.humidity_min

/-- The high-humidity test of `monitor_state` (line 478). -/
def humHighCond (s : St) : Prop := s.humidity > s.humidity_max

instance (s : St) : Decidable (tempLowCond s) := by unfold tempLowCond; infer_instance
instance (s : St) : Decidable (tempHighCond s) := by unfold tempHighCond; infer_instance
instance (s : St) : Decidable (humLowCond s) := by unfold humLowCond; infer_instance
instance (s : St) : Decidable (humHighCond s) := by unfold humHighCond; infer_instance

/-- The `if`/`else if` chain of `monitor_state`: the first breach test
that holds, if any. -/
def checkBreach (s : St) : Option Breach :=
  if tempLowCond s then some .tempTooLow
  else if tempHighCond s then some .tempTooHigh
  else if humLowCond s then some .humTooLow
  else if humHighCond s then some .humTooHigh
  else none

/-- One iteration of `monitor_state`'s inner `while (mode == MONITOR)`
loop: refresh the sensor, then on the first breached condition print its
reason and call `alert()`, whose first statement sets `mode = ALERT`.
Returns the reported breach, if any. -/
def monitorStep (s : St) (r : Reading) : St × Option Breach :=
  let s1 := update_sensor s r
  match checkBreach s1 with
  | some b => ({ s1 with mode := ALERT }, some b)
  | none => (s1, none)

/-- The net state effect of one `alert()` loop iteration
(`beep_and_flash(1000)` then a sleep): the buzzer and LED end up off and
nothing else is written. -/
def alertStep (s : St) : St := { s with buzzer := false, led := false }

/-- Iterating the alert beep/flash loop `n` times. -/
def alertIter : ℕ → St → St
  | 0, s => s
  | n + 1, s => alertIter n (alertStep s)

/-- What `update_lcd` does on seeing `mode == INPUT`, before any digits
arrive for stage 0: `input_stage = 0` (line 267) and `get_input` clears
the buffer (lines 515–516) — a fresh, empty input session. -/
def sessionStart (s : St) : St := beginEntry { s with input_stage := 0 }

/-- One iteration of the main scan loop's row advance (lines 218–220). -/
def scanStep (s : St) : St :=
  let s1 := { s with row := s.row + 1 }
  if s1.row > 3 then { s1 with row := 0 } else s1

/-- An iteration of the `IDLE`/`MONITOR` branch of `update_lcd`
(lines 247–264): it refreshes the sensor and renders; no other state is
written. -/
def lcdTick (s : St) (r : Reading) : St := update_sensor s r

/-! ### The events of the whole system, for stating global invariants -/

/-- Every kind of state mutation any context of the program performs:
a keypress interrupt, a monitor-task poll (which only acts in `MONITOR`
mode), an alert-loop iteration (which only runs in `ALERT` mode), a whole
`INPUT`-branch pass of the display task (only in `INPUT` mode), a
display refresh (only in `IDLE`/`MONITOR` mode), and a scan-loop row
advance. -/
inductive Ev
  | key : Key → Ev
  | monitorPoll : Reading → Ev
  | alertCycle : Ev
  | inputRun : List Key → List Key → List Key → List Key → Ev
  | lcdRefresh : Reading → Ev
  | scan : Ev
  deriving Repr

def applyEv (s : St) : Ev → St
  | .key k => pressKey s k
  | .monitorPoll r => if s.mode = MONITOR then (monitorStep s r).1 else s
  | .alertCycle => if s.mode = ALERT then alertStep s else s
  | .inputRun d0 d1 d2 d3 => if s.mode = INPUT then (inputBranch s d0 d1 d2 d3).1 else s
  | .lcdRefresh r => if s.mode = MONITOR ∨ s.mode = IDLE then lcdTick s r else s
  | .scan => scanStep s

/-- The mode variable holds one of the four legal constants. -/
def modeOK (s : St) : Prop :=
  s.mode = IDLE ∨ s.mode = INPUT ∨ s.mode = MONITOR ∨ s.mode = ALERT

instance (s : St) : Decidable (modeOK s) := by unfold modeOK; infer_instance

/-! ### Concrete states used by the examples -/

/-- The state just after `D` was pressed from the initial state: `INPUT`
mode, everything else still at its initial value. -/
def stIn : St := { st0 with mode := INPUT }

/-- A `MONITOR`-mode state with thresholds 10–40 °C / 30–80 % RH (the
Fahrenheit fields hold the conversions of 10 and 40, which the session
would have stored) and Celsius selected. -/
def stMon : St :=
  { st0 with
    mode := MONITOR
    temp_min_c := 10
    temp_max_c := 40
    temp_min_f := toFahrenheit 10
    temp_max_f := toFahrenheit 40
    humidity_min := 30
    humidity_max := 80 }

/-- An `ALERT`-mode state (as left by `alert()` entered from `stMon`). -/
def stAlert : St := { stMon with mode := ALERT, celcius := 45, fahrenheit := 113, humidity := 50 }

/-- The concrete `INPUT`-mode state (fresh buffer) on which a `*` or `#`
press exhibits its effect. -/
def stStar : St := { stIn with input_len := 0 }

/-- Keypress sequences typing the decimal values 40, 10, 30 and 80. -/
def d40 : List Key := [Key.k4, Key.k0]
def d10 : List Key := [Key.k1, Key.k0]
def d30 : List Key := [Key.k3, Key.k0]
def d80 : List Key := [Key.k8, Key.k0]

/-! ## Helper lemmas -/

/-- Effect of one digit keypress in `INPUT` mode: append the digit and
count it when the length counter is below the cap, otherwise change
nothing (beyond the scan cursor the press itself occupies). -/
theorem pressKey_digit (s : St) (k : Key) (hk : k.isDigit = true) (hm : s.mode = INPUT) :
    pressKey s k =
      if s.input_len < MAX_INPUT then
        { s with row := k.row, input_str := s.input_str ++ [k.char],
                 input_len := s.input_len + 1, input_modified := true }
      else { s with row := k.row } := by
  cases k <;> simp only [Key.isDigit, Bool.false_eq_true] at hk <;>
    simp [pressKey, Key.col, Key.row, Key.char, isr_c0, isr_c1, isr_c2, hm]

/-- Folding digit keypresses over a well-formed `INPUT`-mode buffer:
the mode survives, the length counter tracks the buffer, and the buffer
receives exactly the digits that fit below the 9-character cap. -/
theorem pressList_digits (ks : List Key) (s : St) (hm : s.mode = INPUT)
    (hd : ∀ k ∈ ks, k.isDigit = true)
    (hlen : s.input_len = (s.input_str.length : ℤ))
    (hle : s.input_str.length ≤ 9) :
    (pressList s ks).mode = INPUT ∧
    (pressList s ks).input_len = ((pressList s ks).input_str.length : ℤ) ∧
    (pressList s ks).input_str =
      s.input_str ++ (ks.map Key.char).take (9 - s.input_str.length) := by
  induction ks generalizing s with
  | nil => simpa [pressList] using ⟨hm, hlen⟩
  | cons k ks ih =>
    have hk : k.isDigit = true := hd k (by simp)
    have hd' : ∀ k' ∈ ks, k'.isDigit = true := fun k' h => hd k' (by simp [h])
    have hstep := pressKey_digit s k hk hm
    have hfold : pressList s (k :: ks) = pressList (pressKey s k) ks := by
      simp [pressList]
    by_cases h9 : s.input_str.length < 9
    · have hlt : s.input_len < MAX_INPUT := by
        rw [hlen]; unfold MAX_INPUT; exact_mod_cast h9
      rw [if_pos hlt] at hstep
      have hmode1 : (pressKey s k).mode = INPUT := by rw [hstep]; exact hm
      have hstr1 : (pressKey s k).input_str = s.input_str ++ [k.char] := by rw [hstep]
      have hlen1 : (pressKey s k).input_len = ((pressKey s k).input_str.length : ℤ) := by
        rw [hstep]; simp [hlen]
      have hle1 : (pressKey s k).input_str.length ≤ 9 := by
        rw [hstr1]; simp; omega
      obtain ⟨h1, h2, h3⟩ := ih (pressKey s k) hmode1 hd' hlen1 hle1
      rw [hfold]
      refine ⟨h1, h2, ?_⟩
      rw [h3, hstr1]
      simp only [List.length_append, List.length_cons, List.length_nil, List.map_cons,
        Nat.zero_add, List.append_assoc, List.singleton_append]
      have harith : 9 - s.input_str.length = (9 - (s.input_str.length + 1)) + 1 := by omega
      rw [harith, List.take_succ_cons]
    · have hge : ¬ s.input_len < MAX_INPUT := by
        rw [hlen]; unfold MAX_INPUT; intro h; exact h9 (by exact_mod_cast h)
      rw [if_neg hge] at hstep
      have h9' : s.input_str.length = 9 := by omega
      have hmode1 : (pressKey s k).mode = INPUT := by rw [hstep]; exact hm
      have hstr1 : (pressKey s k).input_str = s.input_str := by rw [hstep]
      have hlen1 : (pressKey s k).input_len = ((pressKey s k).input_str.length : ℤ) := by
        rw [hstep]; exact hlen
      have hle1 : (pressKey s k).input_str.length ≤ 9 := by rw [hstr1]; exact hle
      obtain ⟨h1, h2, h3⟩ := ih (pressKey s k) hmode1 hd' hlen1 hle1
      rw [hfold]
      refine ⟨h1, h2, ?_⟩
      rw [h3, hstr1, h9']
      simp

/-- While the system is in `INPUT` mode, no keypress leaves `INPUT`
mode: `B` is ignored there, `D` re-asserts `INPUT`, and every other key
does not write `mode`. -/
theorem pressKey_mode_INPUT (s : St) (k : Key) (hm : s.mode = INPUT) :
    (pressKey s k).mode = INPUT := by
  cases k <;> simp only [pressKey, Key.col, Key.row] <;>
    simp only [isr_c0, isr_c1, isr_c2, isr_c3] <;> split_ifs <;> simp_all

theorem pressList_mode_INPUT (ks : List Key) (s : St) (hm : s.mode = INPUT) :
    (pressList s ks).mode = INPUT := by
  induction ks generalizing s with
  | nil => exact hm
  | cons k ks ih =>
    have : pressList s (k :: ks) = pressList (pressKey s k) ks := by simp [pressList]
    rw [this]
    exact ih _ (pressKey_mode_INPUT s k hm)

theorem storeStage_mode (s : St) (i : ℕ) : (storeStage s i).mode = s.mode := by
  unfold storeStage; split_ifs <;> rfl

theorem storeStage_unit (s : St) (i : ℕ) : (storeStage s i).unit = s.unit := by
  unfold storeStage; split_ifs <;> rfl

theorem runStage_mode (s : St) (i : ℕ) (ks : List Key) (hm : s.mode = INPUT) :
    (runStage s i ks).mode = INPUT := by
  unfold runStage
  rw [storeStage_mode]
  exact pressKey_mode_INPUT _ _ (pressList_mode_INPUT _ _ hm)

theorem runStages_mode (s : St) (d0 d1 d2 d3 : List Key) (hm : s.mode = INPUT) :
    (runStages s d0 d1 d2 d3).mode = INPUT := by
  unfold runStages
  exact runStage_mode _ _ _ (runStage_mode _ _ _ (runStage_mode _ _ _ (runStage_mode _ _ _ hm)))

/-- Validation only decides the mode transition; it writes none of the
six threshold fields. -/
theorem inputBranch_config (s : St) (d0 d1 d2 d3 : List Key) :
    config (inputBranch s d0 d1 d2 d3).1 = config (runStages s d0 d1 d2 d3) := by
  simp only [inputBranch]
  split_ifs <;> rfl

/-- Validation is exactly the three chained range checks. -/
theorem validate_input_iff (s : St) :
    validate_input s = true ↔
      (0 ≤ s.temp_min_c ∧ s.temp_min_c ≤ s.temp_max_c ∧ s.temp_max_c ≤ 50) ∧
      ((32 : ℚ) ≤ s.temp_min_f ∧ s.temp_min_f ≤ s.temp_max_f ∧ s.temp_max_f ≤ (122 : ℚ)) ∧
      (20 ≤ s.humidity_min ∧ s.humidity_min ≤ s.humidity_max ∧ s.humidity_max ≤ 95) := by
  unfold validate_input TEMP_MIN_C TEMP_MAX_C TEMP_MIN_F TEMP_MAX_F HUMIDITY_MIN HUMIDITY_MAX
  simp only [Bool.and_eq_true, decide_eq_true_eq]
  norm_num
  tauto

/-! ## The claims -/

/-- Claim C2: pressing `*` (column 0, row 3) or `#` (column 2, row 3) is
claimed to change no program state.  In fact, while the mode is `INPUT`
and the length counter is below the cap, both presses leave the buffer
alone but increment `input_len` and raise the dirty flag — the
`input_len++` of `isr_c0`/`isr_c2` sits outside the row dispatch, so it
runs even when no digit was appended.  This contradicts the source's own
header ("no programmed functionality for '#' and '*'"), so the claim
describes the intent and the code diverges from it. -/
theorem c2_star_hash_mutate_state :
    (pressKey stStar Key.kStar).input_str = stStar.input_str ∧
    (pressKey stStar Key.kStar).input_len = stStar.input_len + 1 ∧
    (pressKey stStar Key.kStar).input_modified = true ∧
    (pressKey stStar Key.kHash).input_str = stStar.input_str ∧
    (pressKey stStar Key.kHash).input_len = stStar.input_len + 1 ∧
    (pressKey stStar Key.kHash).input_modified = true ∧
    stStar.input_modified = false ∧ stStar.input_len = 0 := by decide

/-- Claim C1, counterexample: completing the four stages with 40, 10,
30, 80 (inverted temperature bounds) from the default configuration
fails validation, yet the thresholds do NOT retain their pre-session
values and the mode does NOT return to `IDLE` — the stage loop already
overwrote the configuration, and the invalid branch writes nothing, so
the mode variable still holds `INPUT`. -/
theorem c1_counterexample :
    ¬ (config (inputBranch stIn d40 d10 d30 d80).1 = config stIn ∧
       (inputBranch stIn d40 d10 d30 d80).1.mode = IDLE) := by decide

/-- Claim C1 (amended): if an `INPUT` session completes its four stages
and validation fails, the invalid-input notice is shown for the fixed
delay (the `true` component) and nothing further is written: the mode
variable still holds `INPUT` (the collection loop restarts; it does not
return to `IDLE`), and the `ThresholdConfig` fields keep the values the
four stages stored — the pre-session values are not restored. -/
theorem c1_invalid_session (s : St) (d0 d1 d2 d3 : List Key)
    (hm : s.mode = INPUT)
    (hv : validate_input { runStages s d0 d1 d2 d3 with input_stage := -1 } = false) :
    inputBranch s d0 d1 d2 d3 =
      ({ runStages s d0 d1 d2 d3 with input_stage := -1 }, true) ∧
    (inputBranch s d0 d1 d2 d3).1.mode = INPUT ∧
    config (inputBranch s d0 d1 d2 d3).1 = config (runStages s d0 d1 d2 d3) := by
  have h1 : inputBranch s d0 d1 d2 d3 =
      ({ runStages s d0 d1 d2 d3 with input_stage := -1 }, true) := by
    simp [inputBranch, hv]
  refine ⟨h1, ?_, inputBranch_config s d0 d1 d2 d3⟩
  rw [h1]
  exact runStages_mode s d0 d1 d2 d3 hm

theorem c1_witness :
    stIn.mode = INPUT ∧
    validate_input { runStages stIn d40 d10 d30 d80 with input_stage := -1 } = false ∧
    (inputBranch stIn d40 d10 d30 d80).1.mode = INPUT := by
  refine ⟨rfl, by decide, ?_⟩
  exact (c1_invalid_session stIn d40 d10 d30 d80 rfl (by decide)).2.1

/-- Claim C5: after the four stages complete, the new configuration is
in place and the mode has advanced to `MONITOR` exactly when the three
chained range checks hold of the stored values: 0 ≤ temp_min_c ≤
temp_max_c ≤ 50, 32 ≤ temp_min_f ≤ temp_max_f ≤ 122, and 20 ≤
humidity_min ≤ humidity_max ≤ 95.  (The first conjunct on the left holds
unconditionally — the stages write the configuration before validation —
so the equivalence is carried by the mode transition.) -/
theorem c5_validation_gates_monitor (s : St) (d0 d1 d2 d3 : List Key) (hm : s.mode = INPUT) :
    (config (inputBranch s d0 d1 d2 d3).1 = config (runStages s d0 d1 d2 d3) ∧
        (inputBranch s d0 d1 d2 d3).1.mode = MONITOR) ↔
      ((0 ≤ (runStages s d0 d1 d2 d3).temp_min_c ∧
          (runStages s d0 d1 d2 d3).temp_min_c ≤ (runStages s d0 d1 d2 d3).temp_max_c ∧
          (runStages s d0 d1 d2 d3).temp_max_c ≤ 50) ∧
        ((32 : ℚ) ≤ (runStages s d0 d1 d2 d3).temp_min_f ∧
          (runStages s d0 d1 d2 d3).temp_min_f ≤ (runStages s d0 d1 d2 d3).temp_max_f ∧
          (runStages s d0 d1 d2 d3).temp_max_f ≤ (122 : ℚ)) ∧
        (20 ≤ (runStages s d0 d1 d2 d3).humidity_min ∧
          (runStages s d0 d1 d2 d3).humidity_min ≤ (runStages s d0 d1 d2 d3).humidity_max ∧
          (runStages s d0 d1 d2 d3).humidity_max ≤ 95)) := by
  have hiff := validate_input_iff { runStages s d0 d1 d2 d3 with input_stage := -1 }
  by_cases hv : validate_input { runStages s d0 d1 d2 d3 with input_stage := -1 } = true
  · constructor
    · intro _
      exact hiff.mp hv
    · intro _
      refine ⟨inputBranch_config s d0 d1 d2 d3, ?_⟩
      simp [inputBranch, hv]
  · rw [Bool.not_eq_true] at hv
    constructor
    · intro h
      exfalso
      have hmode : (inputBranch s d0 d1 d2 d3).1.mode = INPUT := by
        have : inputBranch s d0 d1 d2 d3 =
            ({ runStages s d0 d1 d2 d3 with input_stage := -1 }, true) := by
          simp [inputBranch, hv]
        rw [this]
        exact runStages_mode s d0 d1 d2 d3 hm
      rw [h.2] at hmode
      exact absurd hmode (by decide)
    · intro hchains
      exact absurd (hiff.mpr hchains) (by simp [hv])

theorem c5_witness :
    stIn.mode = INPUT ∧
    (config (inputBranch stIn d10 d40 d30 d80).1 = config (runStages stIn d10 d40 d30 d80) ∧
      (inputBranch stIn d10 d40 d30 d80).1.mode = MONITOR) := by
  refine ⟨rfl, (c5_validation_gates_monitor stIn d10 d40 d30 d80 rfl).mpr ?_⟩
  exact (validate_input_iff { runStages stIn d10 d40 d30 d80 with input_stage := -1 }).mp
    (by with_unfolding_all decide)

/-- Claim C3: digit keys delivered in `INPUT` mode into a fresh buffer
concatenate in arrival order as long as at most 9 arrive; the buffer
never exceeds 9 characters; and once 9 or more digit keys have arrived,
a further digit key changes neither the buffer nor the length
counter. -/
theorem c3_digit_sequences (ks : List Key) (s : St)
    (hm : s.mode = INPUT) (hs : s.input_str = []) (hl : s.input_len = 0)
    (hd : ∀ k ∈ ks, k.isDigit = true) :
    (ks.length ≤ 9 → (pressList s ks).input_str = ks.map Key.char) ∧
    (pressList s ks).input_str.length ≤ 9 ∧
    (∀ k, k.isDigit = true → 9 ≤ ks.length →
      (pressKey (pressList s ks) k).input_str = (pressList s ks).input_str ∧
      (pressKey (pressList s ks) k).input_len = (pressList s ks).input_len) := by
  obtain ⟨h1, h2, h3⟩ := pressList_digits ks s hm hd (by rw [hs, hl]; rfl) (by rw [hs]; simp)
  have hstr : (pressList s ks).input_str = (ks.map Key.char).take 9 := by
    rw [h3, hs]
    simp
  have hlen9 : (pressList s ks).input_str.length = min 9 ks.length := by
    rw [hstr, List.length_take, List.length_map]
  refine ⟨?_, ?_, ?_⟩
  · intro hle
    rw [hstr]
    exact List.take_of_length_le (by simpa using hle)
  · rw [hlen9]
    omega
  · intro k hk h9
    have hfull : ¬ (pressList s ks).input_len < MAX_INPUT := by
      rw [h2, hlen9]
      unfold MAX_INPUT
      have : min 9 ks.length = 9 := by omega
      rw [this]
      decide
    have hdig := pressKey_digit (pressList s ks) k hk h1
    rw [if_neg hfull] at hdig
    rw [hdig]
    exact ⟨rfl, rfl⟩

theorem c3_witness :
    stStar.mode = INPUT ∧ stStar.input_str = [] ∧ stStar.input_len = 0 ∧
    (∀ k ∈ [Key.k4, Key.k0], k.isDigit = true) ∧
    (pressList stStar [Key.k4, Key.k0]).input_str = ['4', '0'] := by
  refine ⟨rfl, rfl, rfl, by decide, ?_⟩
  exact (c3_digit_sequences [Key.k4, Key.k0] stStar rfl rfl rfl (by decide)).1 (by decide)

/-- Claim C6: a `C` press (column 3, row 2) while the mode is not
`INPUT` toggles the measurement unit and writes nothing else; a second
such press restores the state exactly. -/
theorem c6_unit_toggle (s : St) (hr : s.row = 2) (hm : s.mode ≠ INPUT) :
    isr_c3 s = { s with unit := !s.unit } ∧ isr_c3 (isr_c3 s) = s := by
  have h1 : isr_c3 s = { s with unit := !s.unit } := by
    simp [isr_c3, hr, hm]
  have h2 : isr_c3 { s with unit := !s.unit } = { s with unit := !(!s.unit) } := by
    simp [isr_c3, hr, hm]
  refine ⟨h1, ?_⟩
  rw [h1, h2]
  simp

theorem c6_witness :
    ({ st0 with row := 2 } : St).row = 2 ∧ ({ st0 with row := 2 } : St).mode ≠ INPUT ∧
      (isr_c3 { st0 with row := 2 } = { st0 with row := 2, unit := !st0.unit } ∧
        isr_c3 (isr_c3 { st0 with row := 2 }) = { st0 with row := 2 }) := by
  exact ⟨rfl, by decide, c6_unit_toggle { st0 with row := 2 } rfl (by decide)⟩

/-- Claim C4: `monitor_state` checks the four breach conditions in the
fixed order low-temperature, high-temperature, low-humidity,
high-humidity against the currently selected unit and reports only the
first one that holds; concretely, with thresholds 10–40 °C / 30–80 % and
a reading of 45 °C / 50 %, it enters `ALERT` for the reason displayed as
"Temperature Too" / "High" — not a humidity reason. -/
theorem c4_monitor_priority :
    (∀ s : St, checkBreach s = some Breach.tempTooLow ↔ tempLowCond s) ∧
    (∀ s : St, checkBreach s = some Breach.tempTooHigh ↔ ¬tempLowCond s ∧ tempHighCond s) ∧
    (∀ s : St, checkBreach s = some Breach.humTooLow ↔
      ¬tempLowCond s ∧ ¬tempHighCond s ∧ humLowCond s) ∧
    (∀ s : St, checkBreach s = some Breach.humTooHigh ↔
      ¬tempLowCond s ∧ ¬tempHighCond s ∧ ¬humLowCond s ∧ humHighCond s) ∧
    (monitorStep stMon ⟨45, 113, 50⟩).1.mode = ALERT ∧
    (monitorStep stMon ⟨45, 113, 50⟩).2 = some Breach.tempTooHigh ∧
    breachLines Breach.tempTooHigh = ["Temperature Too", "High"] := by
  refine ⟨?_, ?_, ?_, ?_, ?_, ?_, rfl⟩
  · intro s; unfold checkBreach; split_ifs <;> simp_all
  · intro s; unfold checkBreach; split_ifs <;> simp_all
  · intro s; unfold checkBreach; split_ifs <;> simp_all
  · intro s; unfold checkBreach; split_ifs <;> simp_all
  · with_unfolding_all decide
  · with_unfolding_all decide

theorem alertIter_mode (n : ℕ) (s : St) : (alertIter n s).mode = s.mode := by
  induction n generalizing s with
  | zero => rfl
  | succ n ih => rw [alertIter, ih]; rfl

/-- A monitor poll either raises the alert or leaves the mode alone. -/
theorem monitorStep_mode (s : St) (r : Reading) :
    (monitorStep s r).1.mode = ALERT ∨ (monitorStep s r).1.mode = s.mode := by
  rcases hcb : checkBreach (update_sensor s r) with _ | b <;>
    simp only [monitorStep, hcb] <;> simp [update_sensor]

/-- Claim C7: from `ALERT` mode, however many beep/flash cycles have
elapsed, pressing `B` moves the mode to `IDLE` and pressing `D` moves it
to `INPUT`, after which the display task opens a fresh, empty input
session (stage 0, empty buffer, zero length); no other keypress and no
alert-loop iteration moves the mode out of `ALERT`. -/
theorem c7_alert_exit (s : St) (hm : s.mode = ALERT) (n : ℕ) :
    (pressKey (alertIter n s) Key.kB).mode = IDLE ∧
    (pressKey (alertIter n s) Key.kD).mode = INPUT ∧
    (sessionStart (pressKey (alertIter n s) Key.kD)).input_stage = 0 ∧
    (sessionStart (pressKey (alertIter n s) Key.kD)).input_str = [] ∧
    (sessionStart (pressKey (alertIter n s) Key.kD)).input_len = 0 ∧
    (∀ k : Key, k ≠ Key.kB → k ≠ Key.kD → (pressKey (alertIter n s) k).mode = ALERT) ∧
    (alertStep (alertIter n s)).mode = ALERT := by
  have hmode : (alertIter n s).mode = ALERT := by rw [alertIter_mode]; exact hm
  refine ⟨?_, ?_, rfl, rfl, rfl, ?_, hmode⟩
  · simp only [pressKey, Key.col, Key.row, isr_c3]
    norm_num [hmode, ALERT, INPUT, IDLE]
  · simp only [pressKey, Key.col, Key.row, isr_c3]
    norm_num
  · intro k hkB hkD
    cases k <;> simp only [pressKey, Key.col, Key.row] <;>
      simp only [isr_c0, isr_c1, isr_c2, isr_c3] <;> split_ifs <;>
      simp_all [ALERT, INPUT, IDLE, MONITOR]

theorem c7_witness :
    stAlert.mode = ALERT ∧
    (pressKey (alertIter 3 stAlert) Key.kB).mode = IDLE ∧
    (pressKey (alertIter 3 stAlert) Key.kD).mode = INPUT := by
  have h := c7_alert_exit stAlert rfl 3
  exact ⟨rfl, h.1, h.2.1⟩

/-- Claim C8: whenever a temperature stage stores a bound parsed in one
unit, the other unit's bound is recomputed by conversion in the same
stage, so the pair always satisfies the conversion relation; in
particular, entering 10 and 40 in Celsius mode stores `toFahrenheit 10`
and `toFahrenheit 40` in the Fahrenheit fields, and the session
validates into `MONITOR` mode. -/
theorem c8_paired_unit_conversion (s : St) (ds : List Key) :
    ((runStage s 0 ds).unit = CELCIUS →
      (runStage s 0 ds).temp_min_f = toFahrenheit (runStage s 0 ds).temp_min_c) ∧
    ((runStage s 0 ds).unit = FAHRENHEIT →
      (runStage s 0 ds).temp_min_c = toCelcius (runStage s 0 ds).temp_min_f) ∧
    ((runStage s 1 ds).unit = CELCIUS →
      (runStage s 1 ds).temp_max_f = toFahrenheit (runStage s 1 ds).temp_max_c) ∧
    ((runStage s 1 ds).unit = FAHRENHEIT →
      (runStage s 1 ds).temp_max_c = toCelcius (runStage s 1 ds).temp_max_f) ∧
    (runStages stIn d10 d40 d30 d80).temp_min_f = toFahrenheit 10 ∧
    (runStages stIn d10 d40 d30 d80).temp_max_f = toFahrenheit 40 ∧
    (inputBranch stIn d10 d40 d30 d80).1.mode = MONITOR := by
  refine ⟨?_, ?_, ?_, ?_, ?_, ?_, ?_⟩
  · unfold runStage storeStage; norm_num; split_ifs <;> simp_all [CELCIUS, FAHRENHEIT]
  · unfold runStage storeStage; norm_num; split_ifs <;> simp_all [CELCIUS, FAHRENHEIT]
  · unfold runStage storeStage; norm_num; split_ifs <;> simp_all [CELCIUS, FAHRENHEIT]
  · unfold runStage storeStage; norm_num; split_ifs <;> simp_all [CELCIUS, FAHRENHEIT]
  · with_unfolding_all decide
  · with_unfolding_all decide
  · with_unfolding_all decide

theorem c8_witness :
    (runStage stIn 0 d10).unit = CELCIUS ∧
    (runStage stIn 0 d10).temp_min_f = toFahrenheit (runStage stIn 0 d10).temp_min_c := by
  refine ⟨by with_unfolding_all decide, ?_⟩
  exact (c8_paired_unit_conversion stIn d10).1 (by with_unfolding_all decide)

/-- Claim C9: `mode` is initialised to `IDLE` and every state mutation
the program performs — any keypress interrupt, a monitor-task poll, an
alert-loop iteration, an `INPUT`-branch pass, a display refresh, a scan
advance — writes only one of the four constants, so the invariant
`mode ∈ {IDLE, INPUT, MONITOR, ALERT}` is preserved by every event. -/
theorem c9_mode_invariant :
    modeOK st0 ∧ ∀ (s : St) (e : Ev), modeOK s → modeOK (applyEv s e) := by
  constructor
  · decide
  · intro s e h
    cases e with
    | key k =>
      unfold modeOK at *
      cases k <;> simp only [applyEv, pressKey, Key.col, Key.row] <;>
        simp only [isr_c0, isr_c1, isr_c2, isr_c3] <;> split_ifs <;>
        simp_all [IDLE, INPUT, MONITOR, ALERT]
    | monitorPoll r =>
      simp only [applyEv]
      split_ifs with hmon
      · rcases monitorStep_mode s r with hA | hsame
        · unfold modeOK
          rw [hA]
          tauto
        · unfold modeOK at h ⊢
          rw [hsame]
          exact h
      · exact h
    | alertCycle =>
      simp only [applyEv]
      split_ifs <;> simp_all [modeOK, alertStep]
    | inputRun d0 d1 d2 d3 =>
      simp only [applyEv]
      split_ifs with hin
      · by_cases hv : validate_input { runStages s d0 d1 d2 d3 with input_stage := -1 } = true
        · have hmo : (inputBranch s d0 d1 d2 d3).1.mode = MONITOR := by
            simp [inputBranch, hv]
          unfold modeOK
          rw [hmo]
          tauto
        · rw [Bool.not_eq_true] at hv
          have heq : inputBranch s d0 d1 d2 d3 =
              ({ runStages s d0 d1 d2 d3 with input_stage := -1 }, true) := by
            simp [inputBranch, hv]
          unfold modeOK
          rw [heq]
          right; left
          exact runStages_mode s d0 d1 d2 d3 hin
      · exact h
    | lcdRefresh r =>
      simp only [applyEv]
      split_ifs <;> simp_all [modeOK, lcdTick, update_sensor]
    | scan =>
      unfold modeOK at *
      simp only [applyEv, scanStep]
      split_ifs <;> simp_all

theorem c9_witness : modeOK stIn ∧ modeOK (applyEv stIn (Ev.key Key.kB)) :=
  ⟨by decide, c9_mode_invariant.2 stIn (Ev.key Key.kB) (by decide)⟩

/-- Claim C10, counterexample: the unit conversions do NOT round-trip
exactly on the whole supported range: at `c = 1`, `toFahrenheit` returns
the binary32 value just below 33.8, and truncating `(f − 32) / 1.8`
yields 0, not 1. -/
theorem c10_counterexample :
    toCelcius (toFahrenheit 1) = 0 ∧ toCelcius (toFahrenheit 1) ≠ 1 := by
  with_unfolding_all decide

/-- Claim C10 (amended): on the supported range 0 ≤ c ≤ 50 the
round-trip is exact up to one unit downward: `toCelcius (toFahrenheit c)`
equals `c` or `c − 1` (the single-precision rounding of `toFahrenheit`'s
result can push the truncated quotient one below `c`). -/
theorem c10_roundtrip_within_one (c : ℤ) (h0 : 0 ≤ c) (h50 : c ≤ 50) :
    toCelcius (toFahrenheit c) = c ∨ toCelcius (toFahrenheit c) = c - 1 := by
  have hall : ∀ n : ℕ, n < 51 →
      (toCelcius (toFahrenheit (n : ℤ)) = (n : ℤ) ∨
        toCelcius (toFahrenheit (n : ℤ)) = (n : ℤ) - 1) := by
    with_unfolding_all decide
  have hc : c = ((c.toNat : ℕ) : ℤ) := (Int.toNat_of_nonneg h0).symm
  rw [hc]
  exact hall c.toNat (by omega)

theorem c10_witness :
    (0 : ℤ) ≤ 3 ∧ (3 : ℤ) ≤ 50 ∧
    (toCelcius (toFahrenheit 3) = 3 ∨ toCelcius (toFahrenheit 3) = 3 - 1) :=
  ⟨by decide, by decide, c10_roundtrip_within_one 3 (by decide) (by decide)⟩
